import Mathlib

/-!
Verification development for the `llm-sql-agent` MySQL MCP server
(`src/mcp_server.py`).  The definitions below are a shallow embedding of the
query-safety pipeline, the pagination machinery and the conversation-session
store of that file; the theorems settle the behavioural claims about them.

Modelling conventions:
* Python strings are `List Char` (the relevant SQL text is ASCII; `str.lower`
  is modelled on the ASCII range).
* The MySQL backing store is an oracle `db : String → Except String (List Row)`
  covering the connect/execute round trip; the list of statements the embedded
  `query_data` hands to this oracle is returned explicitly so that "the
  statement was never executed" is expressible.
* The external `libinjection` classifier is an oracle
  `classifier : String → Except Unit Bool`; `Except.error` models the library
  raising an exception.
* Wall-clock timestamps, logging and session expiry (`time.time()`-based TTL
  sweeping) are outside the model; no claim below depends on them.
-/

namespace McpServer

/-- Characters Python's `str.strip` / `str.lstrip` treat as whitespace,
and which `\s` matches (ASCII range). -/
def pyIsSpace (c : Char) : Bool :=
  c == ' ' || c == '\t' || c == '\n' || c == '\r' || c == '\x0b' || c == '\x0c'

/-- Python `str.lstrip()`. -/
def pyLstrip (s : List Char) : List Char := s.dropWhile pyIsSpace

/-- Python `str.rstrip()`. -/
def pyRstrip (s : List Char) : List Char := (s.reverse.dropWhile pyIsSpace).reverse

/-- Python `str.strip()`. -/
def pyStrip (s : List Char) : List Char := pyRstrip (pyLstrip s)

/-- Python `str.lower()` on one character (ASCII range). -/
def pyLowerChar (c : Char) : Char :=
  if 65 ≤ c.toNat ∧ c.toNat ≤ 90 then Char.ofNat (c.toNat + 32) else c

/-- Python `str.lower()` (ASCII range). -/
def pyLower (s : List Char) : List Char := s.map pyLowerChar

/-- A regex word character (`\w`, ASCII range): letter, digit or underscore. -/
def pyIsWord (c : Char) : Bool := c.isAlpha || c.isDigit || c == '_'

/-- Substring containment, Python's `needle in hay` on strings. -/
def containsSub (needle : List Char) : List Char → Bool
  | [] => needle.isEmpty
  | x :: xs => needle.isPrefixOf (x :: xs) || containsSub needle xs

/-- The `re.match(rf"^{p}(\s|\(|\*|\b)", s)` for a purely alphabetic pattern `p`:
`s` starts with `p` and `p` is followed by whitespace, `(`, `*`, or a word
boundary (i.e. end of string or a non-word character). -/
def prefixRuleMatch (p : List Char) (s : List Char) : Bool :=
  p.isPrefixOf s &&
    (match s.drop p.length with
     | [] => true
     | c :: _ => pyIsSpace c || c == '(' || c == '*' || !(pyIsWord c))

/-- The `allowed_prefixes` from `is_safe_query`. -/
def allowed_prefixes : List String := ["select", "show", "desc", "describe", "explain"]

/-- The for/else loop of `is_safe_query`: some allowed read-only starter
matches the (already lstripped and lowered) statement. -/
def prefixAllowed (sql_lower : List Char) : Bool :=
  allowed_prefixes.any (fun p => prefixRuleMatch p.toList sql_lower)

/-- The `dangerous_keywords` from `is_safe_query`. -/
def dangerous_keywords : List String :=
  ["insert", "update", "delete", "drop", "create", "alter",
   "truncate", "replace", "merge", "call", "exec", "execute"]

/-- The `any(keyword in sql_lower for keyword in dangerous_keywords)`:
plain substring containment, exactly as the source's `in` operator. -/
def hasDangerousKeyword (sql_lower : List Char) : Bool :=
  dangerous_keywords.any (fun k => containsSub k.toList sql_lower)

/-- The `is_safe_query` from `src/mcp_server.py`: the trimmed lowered statement
must match an allowed read-only starter, and must not contain any
mutation keyword as a substring. -/
def is_safe_query (sql : String) : Bool :=
  let sql_lower := pyLower (pyLstrip sql.toList)
  prefixAllowed sql_lower && !(hasDangerousKeyword sql_lower)

example : is_safe_query "SELECT * FROM student;" = true := by decide
example : is_safe_query "DELETE FROM student WHERE id=1;" = false := by decide
example : is_safe_query "  explain select 1" = true := by decide
example : is_safe_query "selectx 1" = false := by decide
example : is_safe_query "select last_update from film" = false := by decide
example : is_safe_query "describe student" = true := by decide

/-- Is the position just after character `prev` (none = start of text) a
word boundary for a match that begins with a word character? -/
def boundaryBefore : Option Char → Bool
  | none => true
  | some c => !(pyIsWord c)

/-- The `re` word-token match at one position: `\b field \b` anchored here, where
`prev` is the character just before this position. `field` starts and ends
with word characters, so the boundary reduces to the neighbours. -/
def tokenAt (field : List Char) (prev : Option Char) (s : List Char) : Bool :=
  boundaryBefore prev && field.isPrefixOf s &&
    (match s.drop field.length with
     | [] => true
     | c :: _ => !(pyIsWord c))

/-- Scan of `re.search(rf"\b{field}\b", s)` carrying the previous character. -/
def tokenSearchAux (field : List Char) : Option Char → List Char → Bool
  | prev, [] => tokenAt field prev []
  | prev, x :: xs => tokenAt field prev (x :: xs) || tokenSearchAux field (some x) xs

/-- The `re.search(rf"\b{field}\b", s)` as a Boolean: `field` occurs in `s` as a
whole word-token. -/
def containsToken (field : List Char) (s : List Char) : Bool :=
  tokenSearchAux field none s

/-- The `SENSITIVE_FIELDS` from `src/mcp_server.py`. -/
def SENSITIVE_FIELDS : List String := ["password", "salary", "ssn", "credit_card"]

/-- The `contains_sensitive_field` from `src/mcp_server.py`: some configured
sensitive column name occurs in the lowered SQL as a whole token. -/
def contains_sensitive_field (sql : String) : Bool :=
  SENSITIVE_FIELDS.any (fun f => containsToken f.toList (pyLower sql.toList))

example : contains_sensitive_field "SELECT password FROM user" = true := by decide
example : contains_sensitive_field "SELECT password_policy FROM config" = false := by decide
example : contains_sensitive_field "select name from student" = false := by decide

/-- One element of an injection-signature regex: a literal character,
`\s*`, or `\s+`. The source's `injection_patterns` use only these. -/
inductive PatElem
  | lit (c : Char)
  | ws0
  | ws1
deriving Repr, DecidableEq

/-- Literal run of pattern characters. -/
def lits (s : String) : List PatElem := s.toList.map PatElem.lit

/-- Backtracking match of a signature pattern against a prefix of the text
(the rest of the text may be anything, as in `re.search` at a fixed start).
Structured on explicit fuel so it reduces in the kernel; every recursive call
shrinks pattern length + text length, so `matchHere` below never runs dry. -/
def matchHereF : Nat → List PatElem → List Char → Bool
  | 0, _, _ => false
  | _ + 1, [], _ => true
  | _ + 1, PatElem.lit _ :: _, [] => false
  | f + 1, PatElem.lit c :: ps, x :: xs => c == x && matchHereF f ps xs
  | f + 1, PatElem.ws0 :: ps, [] => matchHereF f ps []
  | f + 1, PatElem.ws0 :: ps, x :: xs =>
      matchHereF f ps (x :: xs) || (pyIsSpace x && matchHereF f (PatElem.ws0 :: ps) xs)
  | _ + 1, PatElem.ws1 :: _, [] => false
  | f + 1, PatElem.ws1 :: ps, x :: xs => pyIsSpace x && matchHereF f (PatElem.ws0 :: ps) xs

/-- Match of a signature pattern at the start of the text, fuel pre-charged. -/
def matchHere (ps : List PatElem) (xs : List Char) : Bool :=
  matchHereF (ps.length + xs.length + 1) ps xs

/-- The `re.search(pattern, s)`: the pattern matches starting at some position. -/
def searchPat (p : List PatElem) : List Char → Bool
  | [] => matchHere p []
  | x :: xs => matchHere p (x :: xs) || searchPat p xs

/-- The `injection_patterns` from `is_sql_injection`, in source order. -/
def injection_patterns : List (List PatElem) :=
  [ lits "or" ++ [PatElem.ws0] ++ lits "1" ++ [PatElem.ws0] ++ lits "=" ++ [PatElem.ws0] ++ lits "1"
  , lits "union" ++ [PatElem.ws1] ++ lits "select"
  , lits ";" ++ [PatElem.ws0] ++ lits "drop" ++ [PatElem.ws1]
  , lits ";" ++ [PatElem.ws0] ++ lits "insert" ++ [PatElem.ws1]
  , lits ";" ++ [PatElem.ws0] ++ lits "update" ++ [PatElem.ws1]
  , lits ";" ++ [PatElem.ws0] ++ lits "delete" ++ [PatElem.ws1]
  , lits "and" ++ [PatElem.ws1] ++ lits "sleep" ++ [PatElem.ws0] ++ lits "("
  , lits "benchmark" ++ [PatElem.ws0] ++ lits "("
  , lits "and" ++ [PatElem.ws0] ++ lits "(" ++ [PatElem.ws0] ++ lits "select"
  , lits "and" ++ [PatElem.ws1] ++ lits "exists" ++ [PatElem.ws0] ++ lits "("
  , lits "and" ++ [PatElem.ws0] ++ lits "(" ++ [PatElem.ws0] ++ lits "1"
      ++ [PatElem.ws0] ++ lits "=" ++ [PatElem.ws0] ++ lits "1"
  , lits "or" ++ [PatElem.ws0] ++ lits "(" ++ [PatElem.ws0] ++ lits "1"
      ++ [PatElem.ws0] ++ lits "=" ++ [PatElem.ws0] ++ lits "1"
  , lits "or" ++ [PatElem.ws0] ++ lits "1" ++ [PatElem.ws0] ++ lits "=" ++ [PatElem.ws0] ++ lits "1--"
  , lits "or" ++ [PatElem.ws0] ++ lits "1" ++ [PatElem.ws0] ++ lits "=" ++ [PatElem.ws0] ++ lits "1#"
  ]

/-- Does some confirming injection signature match the stripped, lowered SQL? -/
def matchesInjectionSignature (sql_lower : List Char) : Bool :=
  injection_patterns.any (fun p => searchPat p sql_lower)

/-- The `is_sql_injection` from `src/mcp_server.py`. The external `libinjection`
call is the oracle `classifier` (`Except.error` = the library raised); a
heuristic flag is only trusted when one of the in-repo regex signatures
confirms it, and any exception makes the check return `False`. -/
def is_sql_injection (classifier : String → Except Unit Bool) (sql : String) : Bool :=
  let sql_lower := pyLower (pyStrip sql.toList)
  match classifier sql with
  | Except.error _ => false
  | Except.ok is_sqli =>
      if is_sqli then matchesInjectionSignature sql_lower
      else false

example :
    is_sql_injection (fun _ => Except.ok true)
      "SELECT * FROM student WHERE id=1 OR 1=1" = true := by decide
example :
    is_sql_injection (fun _ => Except.ok true)
      "SELECT * FROM student WHERE name='x'" = false := by decide
example :
    is_sql_injection (fun _ => Except.ok false)
      "SELECT * FROM student WHERE id=1 OR 1=1" = false := by decide
example :
    is_sql_injection (fun _ => Except.error ())
      "SELECT * FROM student WHERE id=1 OR 1=1" = false := by decide

/-- One result row: a MySQL `DictCursor` row, column name to displayed value. -/
abbrev Row := List (String × String)

/-- The failure messages `query_data` / `next_page` / `prev_page` return in
their `error` field, one constructor per distinct message:
`notReadOnly` = "只允许只读查询（SELECT）",
`suspectedInjection` = "检测到疑似SQL注入，已拒绝执行",
`sensitiveField` = "查询包含敏感字段，已拒绝执行",
`execError msg` = the driver/connection message `str(e)`,
`noResultsToPaginate` = "No previous query results to paginate",
`alreadyLastPage` = "Already at the last page",
`alreadyFirstPage` = "Already at the first page". -/
inductive QueryError
  | notReadOnly
  | suspectedInjection
  | sensitiveField
  | execError (msg : String)
  | noResultsToPaginate
  | alreadyLastPage
  | alreadyFirstPage
deriving Repr, DecidableEq

/-- The `pagination` dictionary built by `get_page_data`. -/
structure PaginationInfo where
  current_page : Int
  total_pages : Nat
  page_size : Nat
  total_rows : Nat
  has_next : Bool
  has_prev : Bool
  showing_rows : String
deriving Repr, DecidableEq

/-- The full return value of `get_page_data`: the page slice plus metadata. -/
structure PageInfo (α : Type) where
  data : List α
  pagination : PaginationInfo
deriving Repr, DecidableEq

/-- The result dictionary a tool returns: either `success=False` with one of
the error messages, or `success=True` with the page rows, `rowCount`,
`totalRows` (absent from `prev_page`'s envelope, hence optional) and the
pagination metadata. -/
inductive QueryResult
  | failure (e : QueryError)
  | success (results : List Row) (rowCount : Nat) (totalRows : Option Nat)
      (pagination : PaginationInfo)
deriving Repr, DecidableEq

/-- The `result.get("success", False)` on the modelled result dictionary. -/
def QueryResult.isSuccess : QueryResult → Bool
  | QueryResult.success _ _ _ _ => true
  | QueryResult.failure _ => false

/-- Clamp one Python slice endpoint for a list of length `n`
(negative indices count from the end, both ends clamped into `[0, n]`). -/
def pyIndex (n : Nat) (i : Int) : Nat :=
  if i < 0 then ((n : Int) + i).toNat else min i.toNat n

/-- Python list slicing `xs[a:b]`. -/
def pySlice (xs : List α) (a b : Int) : List α :=
  (xs.take (pyIndex xs.length b)).drop (pyIndex xs.length a)

/-- The `get_page_data` from `src/mcp_server.py`: total pages by ceiling division
(0 when there are no rows), the requested window `results[start:end]` (empty
once `start` reaches the row count), and the derived pagination metadata. -/
def get_page_data (results : List α) (page : Int) (page_size : Nat) : PageInfo α :=
  let total_rows := results.length
  let total_pages := if 0 < total_rows then (total_rows + page_size - 1) / page_size else 0
  let start_idx : Int := page * (page_size : Int)
  let end_idx : Int := min (start_idx + (page_size : Int)) (total_rows : Int)
  let page_data := if start_idx < (total_rows : Int) then pySlice results start_idx end_idx else []
  { data := page_data
    pagination :=
      { current_page := page
        total_pages := total_pages
        page_size := page_size
        total_rows := total_rows
        has_next := decide (page < (total_pages : Int) - 1)
        has_prev := decide (0 < page)
        showing_rows :=
          if page_data.isEmpty then "0-0"
          else toString (start_idx + 1) ++ "-" ++ toString end_idx } }

/-- The global `pagination_state` dictionary. `last_sql` is stored already
stripped and lowered, exactly as `query_data` writes it. -/
structure PaginationState where
  last_sql : List Char
  last_results : Option (List Row)
  current_page : Int
  page_size : Nat
  total_rows : Nat
deriving Repr, DecidableEq

/-- The module-initialisation value of `pagination_state`. -/
def initialPaginationState : PaginationState :=
  { last_sql := [], last_results := none, current_page := 0, page_size := 50, total_rows := 0 }

/-- The `reset_pagination` from `src/mcp_server.py`; note it leaves `page_size`
alone. -/
def reset_pagination (p : PaginationState) : PaginationState :=
  { p with last_sql := [], last_results := none, current_page := 0, total_rows := 0 }

/-- Python truthiness of `pagination_state["last_results"]`:
`None` and the empty row list are both falsy. -/
def listTruthy : Option (List Row) → Bool
  | none => false
  | some [] => false
  | some (_ :: _) => true

/-- The `next_page` from `src/mcp_server.py`: guard on having results, build the
page window for `current_page + 1`, refuse when that window's `has_next` flag
is off, otherwise advance the cursor and return the window. -/
def next_page (st : PaginationState) : QueryResult × PaginationState :=
  if listTruthy st.last_results = false then
    (QueryResult.failure QueryError.noResultsToPaginate, st)
  else
    let results := st.last_results.getD []
    let current_page := st.current_page
    let page_info := get_page_data results (current_page + 1) st.page_size
    if page_info.pagination.has_next = false then
      (QueryResult.failure QueryError.alreadyLastPage, st)
    else
      let st2 := { st with current_page := current_page + 1 }
      (QueryResult.success page_info.data page_info.data.length (some st2.total_rows)
        page_info.pagination, st2)

/-- The `prev_page` from `src/mcp_server.py`: guard on having results, refuse at
page 0, otherwise step the cursor back and return that page's window
(without a `totalRows` field in its envelope). -/
def prev_page (st : PaginationState) : QueryResult × PaginationState :=
  if listTruthy st.last_results = false then
    (QueryResult.failure QueryError.noResultsToPaginate, st)
  else if st.current_page ≤ 0 then
    (QueryResult.failure QueryError.alreadyFirstPage, st)
  else
    let st2 := { st with current_page := st.current_page - 1 }
    let page_info := get_page_data (st.last_results.getD []) st2.current_page st2.page_size
    (QueryResult.success page_info.data page_info.data.length none page_info.pagination, st2)

example :
    (get_page_data [[("id", "1")], [("id", "2")], [("id", "3")]] 1 2).data
      = [[("id", "3")]] := by decide
example : (get_page_data ([] : List Row) 0 50).pagination.total_pages = 0 := by decide
example :
    (get_page_data [[("id", "1")], [("id", "2")], [("id", "3")]] 5 2).data = [] := by decide

/-- The `MAX_CONTEXT_LENGTH` from `src/mcp_server.py`: `deque(maxlen=10)`. -/
def MAX_CONTEXT_LENGTH : Nat := 10

/-- One entry of a session's bounded history, as built by `add_context`
(wall-clock `timestamp` omitted from the model). -/
structure ContextItem where
  sql : String
  result : QueryResult
  user_message : String
  success : Bool
deriving Repr, DecidableEq

/-- The `metadata` counters of a `ConversationSession`
(`created_at` omitted from the model). -/
structure SessionMetadata where
  total_queries : Nat
  successful_queries : Nat
  failed_queries : Nat
deriving Repr, DecidableEq

/-- The `ConversationSession` from `src/mcp_server.py`
(`last_activity` omitted from the model). The deque is a list, oldest first. -/
structure ConversationSession where
  session_id : String
  context : List ContextItem
  metadata : SessionMetadata
deriving Repr, DecidableEq

/-- The `ConversationSession.__init__`: empty history, zeroed counters. -/
def ConversationSession.new (session_id : String) : ConversationSession :=
  { session_id := session_id, context := []
    metadata := { total_queries := 0, successful_queries := 0, failed_queries := 0 } }

/-- The `deque(maxlen=m).append`: append on the right, evicting from the left
whatever exceeds the capacity. -/
def dequeAppend (maxlen : Nat) (xs : List α) (x : α) : List α :=
  (xs ++ [x]).drop (xs.length + 1 - maxlen)

/-- The `ConversationSession.add_context`: append the context item (evicting the
oldest beyond capacity 10) and bump the all-time counters. -/
def ConversationSession.add_context (s : ConversationSession) (sql : String)
    (result : QueryResult) (user_message : String) : ConversationSession :=
  let item : ContextItem :=
    { sql := sql, result := result, user_message := user_message,
      success := result.isSuccess }
  { s with
    context := dequeAppend MAX_CONTEXT_LENGTH s.context item
    metadata :=
      { total_queries := s.metadata.total_queries + 1
        successful_queries :=
          s.metadata.successful_queries + (if result.isSuccess then 1 else 0)
        failed_queries :=
          s.metadata.failed_queries + (if result.isSuccess then 0 else 1) } }

/-- Lookup in the `conversation_sessions` dictionary (modelled as an
association list keyed by session id). -/
def lookupSession : List (String × ConversationSession) → String → Option ConversationSession
  | [], _ => none
  | (k, s) :: rest, sid => if k = sid then some s else lookupSession rest sid

/-- The `get_or_create_session`: the stored session, or a fresh one. -/
def get_or_create_session (sessions : List (String × ConversationSession))
    (sid : String) : ConversationSession :=
  match lookupSession sessions sid with
  | some s => s
  | none => ConversationSession.new sid

/-- Store a session back into the dictionary (insert-or-overwrite). -/
def setSession : List (String × ConversationSession) → String → ConversationSession →
    List (String × ConversationSession)
  | [], sid, s => [(sid, s)]
  | (k, old) :: rest, sid, s =>
      if k = sid then (k, s) :: rest else (k, old) :: setSession rest sid s

/-- The mutable module state `query_data` touches: the pagination slot and the
session dictionary. -/
structure World where
  pagination_state : PaginationState
  sessions : List (String × ConversationSession)
deriving Repr, DecidableEq

/-- The module-initialisation `World`. -/
def initialWorld : World := { pagination_state := initialPaginationState, sessions := [] }

/-- The `query_data` from `src/mcp_server.py`. Returns the result envelope, the
new module state, and the list of user statements handed to the backing
store (`cursor.execute(sql)`); `db` is the connect-and-execute oracle.
Expired-session sweeping is time-based and outside the model. Gate order
is the source's: `is_safe_query`, `is_sql_injection`,
`contains_sensitive_field`, then the pagination bookkeeping (reset for a
different normalized statement, cursor move for an identical one), then
execution; every exit records a context item in the caller's session. -/
def query_data (classifier : String → Except Unit Bool)
    (db : String → Except String (List Row)) (w : World)
    (sql : String) (page : Int) (page_size : Nat)
    (session_id : String) (user_message : String) :
    QueryResult × World × List String :=
  let session := get_or_create_session w.sessions session_id
  if is_safe_query sql = false then
    let result := QueryResult.failure QueryError.notReadOnly
    (result,
     { w with sessions :=
        setSession w.sessions session_id (session.add_context sql result user_message) },
     [])
  else if is_sql_injection classifier sql = true then
    let result := QueryResult.failure QueryError.suspectedInjection
    (result,
     { w with sessions :=
        setSession w.sessions session_id (session.add_context sql result user_message) },
     [])
  else if contains_sensitive_field sql = true then
    let result := QueryResult.failure QueryError.sensitiveField
    (result,
     { w with sessions :=
        setSession w.sessions session_id (session.add_context sql result user_message) },
     [])
  else
    let normNew := pyLower (pyStrip sql.toList)
    let normOld := pyLower (pyStrip w.pagination_state.last_sql)
    let pag1 :=
      if normNew ≠ normOld then
        { reset_pagination w.pagination_state with
            last_sql := normNew, page_size := page_size }
      else
        { w.pagination_state with current_page := page }
    match db sql with
    | Except.error e =>
        let result := QueryResult.failure (QueryError.execError e)
        (result,
         { pagination_state := pag1
           sessions :=
             setSession w.sessions session_id (session.add_context sql result user_message) },
         [sql])
    | Except.ok results =>
        let pag2 := { pag1 with last_results := some results, total_rows := results.length }
        let page_info := get_page_data results page page_size
        let result := QueryResult.success page_info.data page_info.data.length
            (some page_info.pagination.total_rows) page_info.pagination
        (result,
         { pagination_state := pag2
           sessions :=
             setSession w.sessions session_id (session.add_context sql result user_message) },
         [sql])

example :
    (query_data (fun _ => Except.ok false) (fun _ => Except.ok [[("id", "1")]])
      initialWorld "DELETE FROM student" 0 50 "default" "").2.2 = [] := by decide
example :
    (query_data (fun _ => Except.ok false) (fun _ => Except.ok [[("id", "1")]])
      initialWorld "select id from student" 0 50 "default" "").1.isSuccess = true := by decide
example :
    (query_data (fun _ => Except.ok false) (fun _ => Except.ok [[("id", "1")]])
      initialWorld "select id from student" 0 50 "default" "").2.2
      = ["select id from student"] := by decide

/-! ## Theorems -/

/-- C1: any SQL whose lstripped, lowered text matches no allowed read-only
starter (`select`/`show`/`desc`/`describe`/`explain` followed by whitespace,
`(`, `*`, or a word boundary) makes `query_data` return the not-read-only
failure, and the statement is never handed to the backing store. -/
theorem C1_not_read_only_rejected (classifier : String → Except Unit Bool)
    (db : String → Except String (List Row)) (w : World) (sql : String)
    (page : Int) (page_size : Nat) (session_id user_message : String)
    (h : prefixAllowed (pyLower (pyLstrip sql.toList)) = false) :
    (query_data classifier db w sql page page_size session_id user_message).1
        = QueryResult.failure QueryError.notReadOnly ∧
    (query_data classifier db w sql page page_size session_id user_message).2.2 = [] := by
  have hsafe : is_safe_query sql = false := by
    unfold is_safe_query
    simp only [String.toList] at h
    simp [h]
  constructor <;> simp [query_data, hsafe]

/-- Witness for C1 at the spec's own example input. -/
theorem C1_not_read_only_rejected_witness :
    (query_data (fun _ => Except.ok false) (fun _ => Except.ok [[("id", "1")]])
        initialWorld "DELETE FROM student WHERE id=1;" 0 50 "default" "").1
        = QueryResult.failure QueryError.notReadOnly ∧
    (query_data (fun _ => Except.ok false) (fun _ => Except.ok [[("id", "1")]])
        initialWorld "DELETE FROM student WHERE id=1;" 0 50 "default" "").2.2 = [] :=
  C1_not_read_only_rejected (fun _ => Except.ok false) (fun _ => Except.ok [[("id", "1")]])
    initialWorld "DELETE FROM student WHERE id=1;" 0 50 "default" "" (by decide)

/-- C2 counterexample: the keyword gate uses plain substring containment, so
`update` occurring only inside the identifier `last_update` already rejects
the statement, although no mutation keyword occurs as a whole token. -/
theorem C2_keyword_inside_identifier_counterexample :
    is_safe_query "select last_update from film" = false ∧
    prefixAllowed (pyLower (pyLstrip ("select last_update from film").toList)) = true ∧
    dangerous_keywords.all
      (fun k => !(containsToken k.toList
        (pyLower (pyLstrip ("select last_update from film").toList)))) = true := by
  decide

/-- C2 amended: past the prefix gate, `is_safe_query` rejects exactly when a
mutation keyword occurs anywhere in the lowered text as a plain substring
(so keywords inside longer identifiers also reject). -/
theorem C2_keyword_gate_substring (sql : String)
    (h : prefixAllowed (pyLower (pyLstrip sql.toList)) = true) :
    (is_safe_query sql = false ↔
      hasDangerousKeyword (pyLower (pyLstrip sql.toList)) = true) := by
  unfold is_safe_query
  simp only [String.toList] at h
  simp [h]

/-- Witness for C2's amended statement: a trailing stacked `DROP` rejects. -/
theorem C2_keyword_gate_substring_witness :
    is_safe_query "SELECT * FROM student; DROP TABLE student;" = false :=
  (C2_keyword_gate_substring "SELECT * FROM student; DROP TABLE student;"
    (by decide)).mpr (by decide)

/-- C7: when the external classifier answers without raising, the injection
gate flags exactly the statements the classifier marks AND one of the
in-repo confirming regex signatures matches the stripped lowered text;
an unconfirmed heuristic flag passes through. -/
theorem C7_injection_gate_confirmation (classifier : String → Except Unit Bool)
    (sql : String) (b : Bool) (h : classifier sql = Except.ok b) :
    (is_sql_injection classifier sql = true ↔
      (b = true ∧ matchesInjectionSignature (pyLower (pyStrip sql.toList)) = true)) := by
  unfold is_sql_injection
  rw [h]
  cases b <;> simp

/-- Witness for C7: flagged and regex-confirmed input is rejected. -/
theorem C7_injection_gate_confirmation_witness :
    is_sql_injection (fun _ => Except.ok true)
      "SELECT * FROM student WHERE id=1 OR 1=1" = true :=
  (C7_injection_gate_confirmation (fun _ => Except.ok true)
    "SELECT * FROM student WHERE id=1 OR 1=1" true rfl).mpr (by decide)

/-- C10: if the external classifier raises, `is_sql_injection` returns false
(fails open) and `query_data` can never reject that statement as suspected
injection — validation falls through to the sensitive-field gate. -/
theorem C10_injection_check_fails_open (classifier : String → Except Unit Bool)
    (sql : String) (h : classifier sql = Except.error ()) :
    is_sql_injection classifier sql = false ∧
    ∀ (db : String → Except String (List Row)) (w : World) (page : Int)
      (page_size : Nat) (session_id user_message : String),
      (query_data classifier db w sql page page_size session_id user_message).1 ≠
        QueryResult.failure QueryError.suspectedInjection := by
  have hinj : is_sql_injection classifier sql = false := by
    unfold is_sql_injection
    rw [h]
  refine ⟨hinj, ?_⟩
  intro db w page page_size session_id user_message
  by_cases hs : is_safe_query sql = false
  · simp [query_data, hs]
  · by_cases hsf : contains_sensitive_field sql = true
    · simp [query_data, hs, hinj, hsf]
    · cases hdb : db sql <;> simp [query_data, hs, hinj, hsf, hdb]

/-- Witness for C10 with a raising classifier on an injection-shaped input. -/
theorem C10_injection_check_fails_open_witness :
    is_sql_injection (fun _ => Except.error ())
      "SELECT * FROM student WHERE id=1 OR 1=1" = false ∧
    (query_data (fun _ => Except.error ()) (fun _ => Except.ok [[("id", "1")]])
        initialWorld "SELECT * FROM student WHERE id=1 OR 1=1" 0 50 "default" "").1 ≠
      QueryResult.failure QueryError.suspectedInjection :=
  ⟨(C10_injection_check_fails_open (fun _ => Except.error ())
      "SELECT * FROM student WHERE id=1 OR 1=1" rfl).1,
   (C10_injection_check_fails_open (fun _ => Except.error ())
      "SELECT * FROM student WHERE id=1 OR 1=1" rfl).2
      (fun _ => Except.ok [[("id", "1")]]) initialWorld 0 50 "default" ""⟩

/-- C3 counterexample: re-submitting the *identical* stored normalized SQL
still hands the statement to the backing store — `query_data` always
re-executes; it does not serve the page from the materialized rows. -/
theorem C3_same_sql_reexecutes_counterexample :
    (query_data (fun _ => Except.ok false)
        (fun _ => Except.ok [[("id", "1")], [("id", "2")]])
        { pagination_state :=
            { last_sql := ("select id from student").toList
              last_results := some [[("id", "1")], [("id", "2")]]
              current_page := 0, page_size := 1, total_rows := 2 }
          sessions := [] }
        "select id from student" 1 1 "default" "").2.2
      = ["select id from student"] := by
  decide

/-- C3 amended: for an admitted statement, submitting the same normalized SQL
keeps `last_sql` and `page_size` and moves only the cursor to the requested
page, while a different normalized SQL resets the slot and rebinds it to the
new statement — but in both cases the statement is re-executed against the
backing store and the materialized rows are replaced by the fresh result. -/
theorem C3_pagination_rebinding (classifier : String → Except Unit Bool)
    (db : String → Except String (List Row)) (w : World) (sql : String)
    (page : Int) (page_size : Nat) (session_id user_message : String)
    (rows : List Row)
    (h1 : is_safe_query sql = true)
    (h2 : is_sql_injection classifier sql = false)
    (h3 : contains_sensitive_field sql = false)
    (hdb : db sql = Except.ok rows) :
    (query_data classifier db w sql page page_size session_id user_message).2.2 = [sql] ∧
    (query_data classifier db w sql page page_size session_id user_message).2.1.pagination_state
      = (if pyLower (pyStrip sql.toList) = pyLower (pyStrip w.pagination_state.last_sql) then
          { w.pagination_state with
              current_page := page
              last_results := some rows
              total_rows := rows.length }
        else
          { last_sql := pyLower (pyStrip sql.toList)
            last_results := some rows
            current_page := 0
            page_size := page_size
            total_rows := rows.length }) := by
  simp only [String.toList]
  by_cases hnorm :
      pyLower (pyStrip sql.data) = pyLower (pyStrip w.pagination_state.last_sql) <;>
    constructor <;>
      simp [query_data, h1, h2, h3, hdb, hnorm, reset_pagination]

/-- Witness for C3's amended statement: identical normalized SQL, page 1
requested; the cursor moves, the rows are re-materialized, and the statement
is executed once more. -/
theorem C3_pagination_rebinding_witness :
    (query_data (fun _ => Except.ok false)
        (fun _ => Except.ok [[("id", "1")], [("id", "2")]])
        { pagination_state :=
            { last_sql := ("select id from student").toList
              last_results := some [[("id", "1")], [("id", "2")]]
              current_page := 0, page_size := 1, total_rows := 2 }
          sessions := [] }
        "select id from student" 1 1 "default" "").2.2 = ["select id from student"] ∧
    (query_data (fun _ => Except.ok false)
        (fun _ => Except.ok [[("id", "1")], [("id", "2")]])
        { pagination_state :=
            { last_sql := ("select id from student").toList
              last_results := some [[("id", "1")], [("id", "2")]]
              current_page := 0, page_size := 1, total_rows := 2 }
          sessions := [] }
        "select id from student" 1 1 "default" "").2.1.pagination_state
      = (if pyLower (pyStrip ("select id from student").toList)
            = pyLower (pyStrip ("select id from student").toList) then
          { last_sql := ("select id from student").toList
            last_results := some [[("id", "1")], [("id", "2")]]
            current_page := (1 : Int), page_size := 1, total_rows := 2 }
        else
          { last_sql := pyLower (pyStrip ("select id from student").toList)
            last_results := some [[("id", "1")], [("id", "2")]]
            current_page := 0, page_size := 1, total_rows := 2 }) :=
  C3_pagination_rebinding (fun _ => Except.ok false)
    (fun _ => Except.ok [[("id", "1")], [("id", "2")]])
    { pagination_state :=
        { last_sql := ("select id from student").toList
          last_results := some [[("id", "1")], [("id", "2")]]
          current_page := 0, page_size := 1, total_rows := 2 }
      sessions := [] }
    "select id from student" 1 1 "default" "" [[("id", "1")], [("id", "2")]]
    (by decide) (by decide) (by decide) rfl

/-- C4: `next_page` checks `has_next` of the page it is about to move to, so
from the second-to-last page it already answers "Already at the last page"
and never advances — the last page is unreachable. Evaluation at the failing
input (two rows, page size 1, cursor on page 0 of pages {0, 1}); the second
conjunct shows the current page does have a next page, contradicting the
returned error. -/
theorem C4_next_page_boundary_bug :
    (next_page
        { last_sql := ("select id from student").toList
          last_results := some [[("id", "1")], [("id", "2")]]
          current_page := 0, page_size := 1, total_rows := 2 }
      = (QueryResult.failure QueryError.alreadyLastPage,
         { last_sql := ("select id from student").toList
           last_results := some [[("id", "1")], [("id", "2")]]
           current_page := 0, page_size := 1, total_rows := 2 })) ∧
    (get_page_data [[("id", "1")], [("id", "2")]] 0 1).pagination.has_next = true := by
  decide

/-- Storing a session and reading it back under the same id returns it. -/
theorem lookup_setSession (sid : String) (s : ConversationSession) :
    ∀ l, lookupSession (setSession l sid s) sid = some s := by
  intro l
  induction l with
  | nil => simp [setSession, lookupSession]
  | cons p rest ih =>
      obtain ⟨k, old⟩ := p
      by_cases h : k = sid
      · simp [setSession, h, lookupSession]
      · simp [setSession, h, lookupSession, ih]

/-- The `get_or_create_session` after `setSession` under the same id. -/
theorem getOrCreate_setSession (l : List (String × ConversationSession))
    (sid : String) (s : ConversationSession) :
    get_or_create_session (setSession l sid s) sid = s := by
  simp [get_or_create_session, lookup_setSession]

/-- C5 counterexample: an admitted statement whose execution fails does NOT
leave the pagination state as it was — the slot has already been reset and
rebound to the incoming statement before the execution error surfaces. -/
theorem C5_executor_failure_mutates_counterexample :
    (query_data (fun _ => Except.ok false) (fun _ => Except.error "connection refused")
        { pagination_state :=
            { last_sql := ("select id from student").toList
              last_results := some [[("id", "1")]]
              current_page := 0, page_size := 50, total_rows := 1 }
          sessions := [] }
        "select name from course" 0 50 "default" "").2.1.pagination_state ≠
      { last_sql := ("select id from student").toList
        last_results := some [[("id", "1")]]
        current_page := 0, page_size := 50, total_rows := 1 } := by
  decide

/-- C5 amended: a validator rejection leaves the pagination state exactly as
it was; every failure (validator or executor) still appends the failed
context item to the caller's session; but an executor failure finds the
pagination state already rewritten for the incoming statement (reset and
rebound for a different normalized statement, cursor moved for an identical
one). -/
theorem C5_failure_frame (classifier : String → Except Unit Bool)
    (db : String → Except String (List Row)) (w : World) (sql : String)
    (page : Int) (page_size : Nat) (session_id user_message : String) :
    ((is_safe_query sql = false ∨ is_sql_injection classifier sql = true ∨
        contains_sensitive_field sql = true) →
      (query_data classifier db w sql page page_size session_id
          user_message).2.1.pagination_state = w.pagination_state) ∧
    (∀ e, (query_data classifier db w sql page page_size session_id user_message).1
        = QueryResult.failure e →
      get_or_create_session
          (query_data classifier db w sql page page_size session_id
            user_message).2.1.sessions session_id
        = (get_or_create_session w.sessions session_id).add_context sql
            (QueryResult.failure e) user_message) ∧
    (∀ e, is_safe_query sql = true → is_sql_injection classifier sql = false →
      contains_sensitive_field sql = false → db sql = Except.error e →
      (query_data classifier db w sql page page_size session_id
          user_message).2.1.pagination_state
        = (if pyLower (pyStrip sql.toList) ≠ pyLower (pyStrip w.pagination_state.last_sql)
          then
            { reset_pagination w.pagination_state with
                last_sql := pyLower (pyStrip sql.toList)
                page_size := page_size }
          else { w.pagination_state with current_page := page })) := by
  refine ⟨?_, ?_, ?_⟩
  · rintro (h | h | h)
    · simp [query_data, h]
    · by_cases hs : is_safe_query sql = false
      · simp [query_data, hs]
      · simp [query_data, hs, h]
    · by_cases hs : is_safe_query sql = false
      · simp [query_data, hs]
      · by_cases hi : is_sql_injection classifier sql = true
        · simp [query_data, hs, hi]
        · simp [query_data, hs, hi, h]
  · intro e he
    by_cases hs : is_safe_query sql = false
    · simp only [query_data, hs] at he ⊢
      simp at he
      simp [getOrCreate_setSession, ← he]
    · by_cases hi : is_sql_injection classifier sql = true
      · simp only [query_data, hs, hi] at he ⊢
        simp at he
        simp [hs, hi, getOrCreate_setSession, ← he]
      · by_cases hsf : contains_sensitive_field sql = true
        · simp only [query_data, hs, hi, hsf] at he ⊢
          simp [hs, hi, hsf] at he
          simp [hs, hi, hsf, getOrCreate_setSession, ← he]
        · cases hdb : db sql with
          | error msg =>
              simp only [query_data, hs, hi, hsf, hdb] at he ⊢
              simp [hs, hi, hsf] at he
              simp [hs, hi, hsf, getOrCreate_setSession, ← he]
          | ok results =>
              simp only [query_data, hs, hi, hsf, hdb] at he
              simp [hs, hi, hsf] at he
  · intro e h1 h2 h3 hdb
    simp only [String.toList]
    by_cases hnorm :
        pyLower (pyStrip sql.data) = pyLower (pyStrip w.pagination_state.last_sql) <;>
      simp [query_data, h1, h2, h3, hdb, hnorm, reset_pagination]

/-- Witness for C5's amended statement: a rejected `DELETE` leaves the empty
pagination slot unchanged and appends a failed item to a fresh session. -/
theorem C5_failure_frame_witness :
    (query_data (fun _ => Except.ok false) (fun _ => Except.ok [])
        initialWorld "DELETE FROM student" 0 50 "default" "").2.1.pagination_state
      = initialWorld.pagination_state ∧
    get_or_create_session
        (query_data (fun _ => Except.ok false) (fun _ => Except.ok [])
          initialWorld "DELETE FROM student" 0 50 "default" "").2.1.sessions "default"
      = (get_or_create_session initialWorld.sessions "default").add_context
          "DELETE FROM student" (QueryResult.failure QueryError.notReadOnly) "" :=
  ⟨(C5_failure_frame (fun _ => Except.ok false) (fun _ => Except.ok [])
      initialWorld "DELETE FROM student" 0 50 "default" "").1 (Or.inl (by decide)),
   (C5_failure_frame (fun _ => Except.ok false) (fun _ => Except.ok [])
      initialWorld "DELETE FROM student" 0 50 "default" "").2.1
      QueryError.notReadOnly (by decide)⟩

/-- The `total_pages * page_size` covers all rows: the ceiling-division bound for
the page count `get_page_data` computes. -/
theorem le_ceil_mul (n ps : Nat) (hps : 0 < ps) :
    n ≤ (if 0 < n then (n + ps - 1) / ps else 0) * ps := by
  by_cases hn : 0 < n
  · rw [if_pos hn]
    have h := Nat.div_add_mod (n + ps - 1) ps
    have hlt : (n + ps - 1) % ps < ps := Nat.mod_lt _ hps
    have hc : ((n + ps - 1) / ps) * ps = ps * ((n + ps - 1) / ps) := Nat.mul_comm _ _
    omega
  · omega

/-- The `total_pages` field `get_page_data` reports, as its closed form. -/
theorem get_page_data_total_pages (α : Type) (rows : List α) (page : Int) (ps : Nat) :
    (get_page_data rows page ps).pagination.total_pages
      = (if 0 < rows.length then (rows.length + ps - 1) / ps else 0) := by
  simp [get_page_data]

/-- C6 counterexample: requesting page 5 of a one-row result (valid range
{0}) is answered with `success=true` and an empty page, not with an
out-of-range pagination error. -/
theorem C6_out_of_range_counterexample :
    ((query_data (fun _ => Except.ok false) (fun _ => Except.ok [[("id", "1")]])
        initialWorld "select id from student" 5 50 "default" "").1).isSuccess = true ∧
    (query_data (fun _ => Except.ok false) (fun _ => Except.ok [[("id", "1")]])
        initialWorld "select id from student" 5 50 "default" "").1
      = QueryResult.success [] 0 (some 1)
          ((get_page_data [[("id", "1")]] 5 50).pagination) := by
  decide

/-- C6 amended: for an admitted, successfully executed statement, a requested
page at or beyond `total_pages` is served as a *successful* result with an
empty row window (`results = []`, `rowCount = 0`) and the usual pagination
metadata — the code has no out-of-range pagination error for `query_data`. -/
theorem C6_beyond_range_succeeds_empty (classifier : String → Except Unit Bool)
    (db : String → Except String (List Row)) (w : World) (sql : String)
    (page : Int) (page_size : Nat) (session_id user_message : String)
    (rows : List Row)
    (h1 : is_safe_query sql = true)
    (h2 : is_sql_injection classifier sql = false)
    (h3 : contains_sensitive_field sql = false)
    (hdb : db sql = Except.ok rows)
    (hps : 0 < page_size)
    (hpage : ((get_page_data rows page page_size).pagination.total_pages : Int) ≤ page) :
    (query_data classifier db w sql page page_size session_id user_message).1
      = QueryResult.success [] 0 (some rows.length)
          ((get_page_data rows page page_size).pagination) := by
  rw [get_page_data_total_pages] at hpage
  have hq := le_ceil_mul rows.length page_size hps
  have hge : ((rows.length : Nat) : Int) ≤ page * (page_size : Int) := by
    calc ((rows.length : Nat) : Int)
        ≤ (((if 0 < rows.length then (rows.length + page_size - 1) / page_size else 0)
            * page_size : Nat) : Int) := by exact_mod_cast hq
      _ = ((if 0 < rows.length then (rows.length + page_size - 1) / page_size else 0 : Nat) : Int)
            * (page_size : Int) := by push_cast; ring
      _ ≤ page * (page_size : Int) := by
            apply mul_le_mul_of_nonneg_right hpage
            exact_mod_cast Nat.zero_le page_size
  have hdata : (get_page_data rows page page_size).data = [] := by
    simp only [get_page_data]
    rw [if_neg (not_lt.mpr hge)]
  have hrows : (get_page_data rows page page_size).pagination.total_rows = rows.length := by
    simp [get_page_data]
  simp [query_data, h1, h2, h3, hdb, hdata, hrows]

/-- Witness for C6's amended statement: one row, page 5 of page size 50. -/
theorem C6_beyond_range_succeeds_empty_witness :
    (query_data (fun _ => Except.ok false) (fun _ => Except.ok [[("id", "1")]])
        initialWorld "select id from student" 5 50 "default" "").1
      = QueryResult.success [] 0 (some ([[("id", "1")]] : List Row).length)
          ((get_page_data ([[("id", "1")]] : List Row) 5 50).pagination) :=
  C6_beyond_range_succeeds_empty (fun _ => Except.ok false)
    (fun _ => Except.ok [[("id", "1")]]) initialWorld "select id from student"
    5 50 "default" "" [[("id", "1")]]
    (by decide) (by decide) (by decide) rfl (by decide) (by decide)

/-- The `pyIndex` on a natural-number index clamps at the length. -/
theorem pyIndex_natCast (n k : Nat) : pyIndex n (k : Int) = min k n := by
  simp [pyIndex]

/-- Taking `min x length` elements is taking `x` elements. -/
theorem take_min_length (α : Type) (xs : List α) (x : Nat) :
    xs.take (min x xs.length) = xs.take x := by
  rw [List.take_eq_take]
  omega

/-- The row window of a valid page `n` is the slice
`rows[n*ps : min((n+1)*ps, length)]`. -/
theorem get_page_data_window (α : Type) (rows : List α) (ps n : Nat)
    (hlt : n * ps < rows.length) :
    (get_page_data rows (n : Int) ps).data
      = (rows.take (min ((n + 1) * ps) rows.length)).drop (n * ps) := by
  have hsN : (n : Int) * (ps : Int) = ((n * ps : Nat) : Int) := by push_cast; ring
  have hend : ((n * ps : Nat) : Int) + (ps : Int) = ((n * ps + ps : Nat) : Int) := by
    push_cast; ring
  have hcond : (n : Int) * (ps : Int) < (rows.length : Int) := by
    rw [hsN]; exact_mod_cast hlt
  simp only [get_page_data]
  rw [if_pos hcond]
  simp only [pySlice, hsN, hend]
  rw [← Nat.cast_min (n * ps + ps) rows.length, pyIndex_natCast, pyIndex_natCast]
  rw [Nat.min_comm (min (n * ps + ps) rows.length) rows.length]
  rw [show min rows.length (min (n * ps + ps) rows.length) = min (n * ps + ps) rows.length by
    omega]
  rw [show min (n * ps) rows.length = n * ps by omega]
  rw [Nat.succ_mul]

/-- Concatenating `k` successive windows of width `ps` rebuilds any list of
length at most `k * ps`. -/
theorem range_flatMap_chunks (α : Type) (ps : Nat) :
    ∀ (k : Nat) (xs : List α), xs.length ≤ k * ps →
      (List.range k).flatMap (fun n => (xs.drop (n * ps)).take ps) = xs := by
  intro k
  induction k with
  | zero =>
      intro xs h
      simp only [Nat.zero_mul, Nat.le_zero, List.length_eq_zero] at h
      simp [h]
  | succ k ih =>
      intro xs h
      rw [List.range_succ_eq_map, List.flatMap_cons, List.flatMap_map]
      have hstep :
          ((List.range k).flatMap fun n => (xs.drop (Nat.succ n * ps)).take ps)
            = (List.range k).flatMap fun n => ((xs.drop ps).drop (n * ps)).take ps := by
        apply List.flatMap_congr
        intro a _
        rw [List.drop_drop, Nat.succ_mul, Nat.add_comm (a * ps) ps]
      rw [hstep, ih (xs.drop ps) (by rw [Nat.succ_mul] at h; simp; omega)]
      simp [List.take_append_drop]

/-- C8: for any materialized rows and positive page size, the reported
`total_pages` is the ceiling of rows/pageSize (characterised by its two
bounds, and 0 on no rows), every valid page `n` carries exactly the slice
`rows[n*ps : min((n+1)*ps, N)]`, and concatenating pages `0..total_pages-1`
reproduces the rows exactly. -/
theorem C8_page_partition (α : Type) (rows : List α) (ps : Nat) (hps : 0 < ps) :
    (rows.length ≤ (get_page_data rows (0 : Int) ps).pagination.total_pages * ps ∧
      (get_page_data rows (0 : Int) ps).pagination.total_pages * ps < rows.length + ps) ∧
    (rows = [] → (get_page_data rows (0 : Int) ps).pagination.total_pages = 0) ∧
    (∀ n : Nat, n < (get_page_data rows (0 : Int) ps).pagination.total_pages →
      (get_page_data rows (n : Int) ps).data
        = (rows.take (min ((n + 1) * ps) rows.length)).drop (n * ps)) ∧
    (List.range ((get_page_data rows (0 : Int) ps).pagination.total_pages)).flatMap
        (fun n => (get_page_data rows (n : Int) ps).data) = rows := by
  rw [get_page_data_total_pages]
  have hlow := le_ceil_mul rows.length ps hps
  have hhigh :
      (if 0 < rows.length then (rows.length + ps - 1) / ps else 0) * ps
        < rows.length + ps := by
    by_cases hn : 0 < rows.length
    · rw [if_pos hn]
      have := Nat.div_mul_le_self (rows.length + ps - 1) ps
      omega
    · rw [if_neg hn]; omega
  have hvalid : ∀ n : Nat,
      n < (if 0 < rows.length then (rows.length + ps - 1) / ps else 0) →
      n * ps < rows.length := by
    intro n hn
    have h1 : (n + 1) * ps
        ≤ (if 0 < rows.length then (rows.length + ps - 1) / ps else 0) * ps :=
      Nat.mul_le_mul_right ps hn
    rw [Nat.add_mul, Nat.one_mul] at h1
    omega
  refine ⟨⟨hlow, hhigh⟩, ?_, ?_, ?_⟩
  · intro h
    rw [h]
    simp
  · intro n hn
    exact get_page_data_window α rows ps n (hvalid n hn)
  · have hcong :
        (List.range (if 0 < rows.length then (rows.length + ps - 1) / ps else 0)).flatMap
            (fun n => (get_page_data rows (n : Int) ps).data)
          = (List.range (if 0 < rows.length then (rows.length + ps - 1) / ps else 0)).flatMap
              (fun n => (rows.drop (n * ps)).take ps) := by
      apply List.flatMap_congr
      intro n hn
      rw [List.mem_range] at hn
      rw [get_page_data_window α rows ps n (hvalid n hn)]
      rw [take_min_length α rows ((n + 1) * ps)]
      rw [Nat.add_mul, Nat.one_mul]
      exact Eq.symm (List.take_drop (n * ps) ps rows)
    rw [hcong]
    exact range_flatMap_chunks α ps _ rows hlow

/-- Witness for C8: three rows, page size 2, concatenation rebuilds them. -/
theorem C8_page_partition_witness :
    (List.range ((get_page_data ([1, 2, 3] : List Nat) (0 : Int) 2).pagination.total_pages)).flatMap
        (fun n => (get_page_data ([1, 2, 3] : List Nat) (n : Int) 2).data) = [1, 2, 3] :=
  (C8_page_partition Nat [1, 2, 3] 2 (by decide)).2.2.2

/-- A context item as `add_context` builds it from one recorded call
`(sql, result, user_message)`. -/
def contextItemOf (e : String × QueryResult × String) : ContextItem :=
  { sql := e.1, result := e.2.1, user_message := e.2.2, success := e.2.1.isSuccess }

/-- Replay a sequence of recorded calls through `add_context`, starting from
a fresh session. -/
def recordAll (sid : String) (entries : List (String × QueryResult × String)) :
    ConversationSession :=
  entries.foldl (fun s e => s.add_context e.1 e.2.1 e.2.2) (ConversationSession.new sid)

/-- Replaying calls adds their number to `total_queries` and their
success/failure tallies to the respective counters. -/
theorem foldl_add_context_metadata (entries : List (String × QueryResult × String)) :
    ∀ s : ConversationSession,
    (entries.foldl (fun s e => s.add_context e.1 e.2.1 e.2.2) s).metadata
      = { total_queries := s.metadata.total_queries + entries.length
          successful_queries := s.metadata.successful_queries
            + entries.countP (fun e => e.2.1.isSuccess)
          failed_queries := s.metadata.failed_queries
            + entries.countP (fun e => !(e.2.1.isSuccess)) } := by
  induction entries with
  | nil => intro s; simp
  | cons e rest ih =>
      intro s
      rw [List.foldl_cons, ih]
      simp only [ConversationSession.add_context, List.countP_cons, List.length_cons]
      cases h : e.2.1.isSuccess <;> simp [h] <;> omega

/-- Replaying calls through the capacity-10 deque retains exactly the last
10 of old-history-plus-new-items. -/
theorem foldl_add_context_context (entries : List (String × QueryResult × String)) :
    ∀ s : ConversationSession, s.context.length ≤ MAX_CONTEXT_LENGTH →
    (entries.foldl (fun s e => s.add_context e.1 e.2.1 e.2.2) s).context
      = (s.context ++ entries.map contextItemOf).drop
          ((s.context.length + entries.length) - MAX_CONTEXT_LENGTH) := by
  induction entries with
  | nil =>
      intro s hs
      simp only [List.foldl_nil, List.map_nil, List.append_nil, List.length_nil,
        Nat.add_zero]
      rw [Nat.sub_eq_zero_of_le hs, List.drop_zero]
  | cons e rest ih =>
      intro s hs
      rw [List.foldl_cons]
      have hlen : (s.add_context e.1 e.2.1 e.2.2).context.length ≤ MAX_CONTEXT_LENGTH := by
        simp only [ConversationSession.add_context, dequeAppend, List.length_drop,
          List.length_append, List.length_cons, List.length_nil]
        omega
      rw [ih _ hlen]
      simp only [ConversationSession.add_context, dequeAppend, List.length_drop,
        List.length_append, List.length_cons, List.length_nil, List.length_map,
        List.map_cons]
      rw [← List.drop_append_of_le_length (by simp [MAX_CONTEXT_LENGTH]; omega)]
      rw [List.drop_drop]
      rw [List.append_assoc, List.singleton_append]
      congr 1
      simp only [MAX_CONTEXT_LENGTH]
      omega

/-- C9: after more than 10 recorded calls on a fresh session, the retained
history is exactly the context items of the 10 most recent calls in arrival
order, its length is pinned at 10, and the metadata still counts all calls:
`total_queries` is the number of additions and the success/failure counters
tally all of them. -/
theorem C9_bounded_history (sid : String)
    (entries : List (String × QueryResult × String))
    (h : MAX_CONTEXT_LENGTH < entries.length) :
    (recordAll sid entries).context
        = (entries.map contextItemOf).drop (entries.length - MAX_CONTEXT_LENGTH) ∧
    (recordAll sid entries).context.length = MAX_CONTEXT_LENGTH ∧
    (recordAll sid entries).metadata.total_queries = entries.length ∧
    (recordAll sid entries).metadata.successful_queries
        = entries.countP (fun e => e.2.1.isSuccess) ∧
    (recordAll sid entries).metadata.failed_queries
        = entries.countP (fun e => !(e.2.1.isSuccess)) := by
  have hctx := foldl_add_context_context entries (ConversationSession.new sid)
    (by simp [ConversationSession.new])
  have hmeta := foldl_add_context_metadata entries (ConversationSession.new sid)
  simp only [ConversationSession.new, List.nil_append, List.length_nil,
    Nat.zero_add] at hctx hmeta
  refine ⟨?_, ?_, ?_, ?_, ?_⟩
  · rw [recordAll]
    simp only [ConversationSession.new]
    rw [hctx]
  · rw [recordAll]
    simp only [ConversationSession.new]
    rw [hctx]
    simp only [List.length_drop, List.length_map]
    omega
  · rw [recordAll]
    simp only [ConversationSession.new]
    rw [hmeta]
  · rw [recordAll]
    simp only [ConversationSession.new]
    rw [hmeta]
  · rw [recordAll]
    simp only [ConversationSession.new]
    rw [hmeta]

/-- Witness for C9: eleven recorded calls; the hypothesis 10 < 11 holds. -/
theorem C9_bounded_history_witness :
    MAX_CONTEXT_LENGTH <
      ([("q1", QueryResult.failure QueryError.notReadOnly, ""),
        ("q2", QueryResult.failure QueryError.notReadOnly, ""),
        ("q3", QueryResult.failure QueryError.sensitiveField, ""),
        ("q4", QueryResult.failure QueryError.notReadOnly, ""),
        ("q5", QueryResult.failure QueryError.suspectedInjection, ""),
        ("q6", QueryResult.failure QueryError.notReadOnly, ""),
        ("q7", QueryResult.failure QueryError.notReadOnly, ""),
        ("q8", QueryResult.failure QueryError.sensitiveField, ""),
        ("q9", QueryResult.failure QueryError.notReadOnly, ""),
        ("q10", QueryResult.failure QueryError.notReadOnly, ""),
        ("q11", QueryResult.failure QueryError.notReadOnly, "")] :
          List (String × QueryResult × String)).length ∧
    (recordAll "s1"
        [("q1", QueryResult.failure QueryError.notReadOnly, ""),
         ("q2", QueryResult.failure QueryError.notReadOnly, ""),
         ("q3", QueryResult.failure QueryError.sensitiveField, ""),
         ("q4", QueryResult.failure QueryError.notReadOnly, ""),
         ("q5", QueryResult.failure QueryError.suspectedInjection, ""),
         ("q6", QueryResult.failure QueryError.notReadOnly, ""),
         ("q7", QueryResult.failure QueryError.notReadOnly, ""),
         ("q8", QueryResult.failure QueryError.sensitiveField, ""),
         ("q9", QueryResult.failure QueryError.notReadOnly, ""),
         ("q10", QueryResult.failure QueryError.notReadOnly, ""),
         ("q11", QueryResult.failure QueryError.notReadOnly, "")]).metadata.total_queries
      = 11 :=
  ⟨by decide,
   (C9_bounded_history "s1"
      [("q1", QueryResult.failure QueryError.notReadOnly, ""),
       ("q2", QueryResult.failure QueryError.notReadOnly, ""),
       ("q3", QueryResult.failure QueryError.sensitiveField, ""),
       ("q4", QueryResult.failure QueryError.notReadOnly, ""),
       ("q5", QueryResult.failure QueryError.suspectedInjection, ""),
       ("q6", QueryResult.failure QueryError.notReadOnly, ""),
       ("q7", QueryResult.failure QueryError.notReadOnly, ""),
       ("q8", QueryResult.failure QueryError.sensitiveField, ""),
       ("q9", QueryResult.failure QueryError.notReadOnly, ""),
       ("q10", QueryResult.failure QueryError.notReadOnly, ""),
       ("q11", QueryResult.failure QueryError.notReadOnly, "")] (by decide)).2.2.1⟩

end McpServer
